import Mathlib

set_option linter.unusedVariables false
set_option linter.unreachableTactic false
set_option linter.unusedTactic false

/-!
Shallow embedding of the Bus Pirate AUX-pin subsystem (`Firmware/aux_pin.c`)
and proofs about its PWM generation, servo generation and frequency-counter
logic.

Hardware interaction is modelled explicitly: the hardware registers touched by
the subsystem form a `Registers` record, the manager's internal state is
`aux_state_t`, and values that the firmware obtains by sampling the outside
world (one-second edge counts, average periods, command-line input) are passed
in as parameters.  C `uint16_t` arithmetic is modelled on `Nat` with explicit
reduction modulo 2^16 where the C semantics wraps; C `float` arithmetic (servo
and interactive duty-cycle computations) is modelled in exact rational
arithmetic with truncation on assignment to an unsigned integer.
-/

namespace BusPirate

/-- C `uint16_t` subtraction `a - b` (wrap-around modulo 2^16); the PIC24
compiler has 16-bit `int`, so `uint16_t` operands stay unsigned 16-bit. -/
def u16_sub (a b : Nat) : Nat := (a % 65536 + (65536 - b % 65536)) % 65536

/-- Sets (`v = 1`) or clears (`v = 0`) bit `i` of a 16-bit register word `w`,
embedding C bitfield assignments such as `T2CONbits.TCKPS1 = ON`. -/
def bit_set (w i v : Nat) : Nat :=
  if v = 0 then w &&& (65535 ^^^ (1 <<< i)) else w ||| (1 <<< i)

/-- Possible modes for the AUX pins (C enum `aux_mode_t`): `io_mode` is
`AUX_MODE_IO = 0`, `frequency_mode` is `AUX_MODE_FREQUENCY` and `pwm_mode` is
`AUX_MODE_PWM`. -/
inductive aux_mode_t
  | io_mode
  | frequency_mode
  | pwm_mode
deriving DecidableEq, Repr

/-- AUX pins manager internal state variables container (C struct
`aux_state_t`; the static variable `state`). -/
structure aux_state_t where
  pwm_frequency : Nat
  pwm_duty_cycle : Nat
  mode : aux_mode_t
deriving DecidableEq, Repr

/-- The hardware registers read or written by `aux_pin.c`.  `AUXPIN_RPOUT`
models `RPOR10bits.RP20R` (the peripheral-pin-select output routing of the AUX
pin), `AUXPIN_DIR` the direction bit, `T2CKR` the `RPINR3bits.T2CKR`
clock-input routing, and `IFS1_T5IF` the timer interrupt flag. -/
structure Registers where
  T2CON : Nat
  T4CON : Nat
  OC5CON : Nat
  OC5R : Nat
  OC5RS : Nat
  PR2 : Nat
  PR3 : Nat
  PR4 : Nat
  PR5 : Nat
  TMR2 : Nat
  TMR3HLD : Nat
  TMR4 : Nat
  TMR5HLD : Nat
  IFS1_T5IF : Nat
  AUXPIN_RPOUT : Nat
  AUXPIN_DIR : Nat
  T2CKR : Nat
deriving DecidableEq, Repr

/-- Complete machine state relevant to the subsystem: the manager's own state
variables plus the hardware registers. -/
structure MachState where
  state : aux_state_t
  regs : Registers
deriving DecidableEq, Repr

/-- `BP_AUX_RPIN`: the remappable-pin number of the AUX pin (the source comment
above the macro gives 20). -/
def AUXPIN_RPIN : Nat := 20

/-- Modelled from the spec: the C constant routing output-compare unit 5 to a
remappable pin (named with an `OC5` output-function suffix in the hardware
header, which is not part of the sources).  Its exact numeric value is
hardware-defined; the claims considered depend only on it being the fixed
value written to `AUXPIN_RPOUT` when the PWM output is attached. -/
def OC5_SEL : Nat := 18

/-- C `setup_prescaler_divisor`: picks one of the four prescaler tiers by
frequency threshold, programs timer 2's `TCKPS1`/`TCKPS0` prescale bits
(bits 5 and 4 of `T2CON`) and returns the matching PWM frequency divisor
(`PWM_DIVISOR_PRESCALER_1_256 = 62`, `PWM_DIVISOR_PRESCALER_1_64 = 250`,
`PWM_DIVISOR_PRESCALER_1_8 = 2000`, `PWM_DIVISOR_PRESCALER_1_1 = 16000`). -/
def setup_prescaler_divisor (frequency : Nat) (r : Registers) : Nat × Registers :=
  if frequency < 4 then
    (62, { r with T2CON := bit_set (bit_set r.T2CON 5 1) 4 1 })
  else if frequency < 31 then
    (250, { r with T2CON := bit_set (bit_set r.T2CON 5 1) 4 0 })
  else if frequency < 245 then
    (2000, { r with T2CON := bit_set (bit_set r.T2CON 5 0) 4 1 })
  else
    (16000, { r with T2CON := bit_set (bit_set r.T2CON 5 0) 4 0 })

/-- C `bp_update_pwm(frequency, duty_cycle)`: records the arguments in the
state, shuts the timers down, and either detaches the output (frequency 0) or
programs the PWM generator.  Arguments are `uint16_t`, hence the entry
reductions modulo 2^16; `period` and `cycle` are computed in 16-bit unsigned
arithmetic. -/
def bp_update_pwm (frequency duty_cycle : Nat) (s : MachState) : MachState :=
  let f := frequency % 65536
  let d := duty_cycle % 65536
  let st := { s.state with pwm_frequency := f, pwm_duty_cycle := d }
  let r0 := { s.regs with T2CON := 0, T4CON := 0, OC5CON := 0 }
  if f = 0 then
    { state := { st with mode := aux_mode_t.io_mode },
      regs := { r0 with AUXPIN_RPOUT := 0 } }
  else
    let dr := setup_prescaler_divisor f r0
    let period := u16_sub (dr.1 / f) 1
    let cycle := period * d % 65536 / 100
    { state := { st with mode := aux_mode_t.pwm_mode },
      regs := { dr.2 with
                PR2 := period, AUXPIN_RPOUT := OC5_SEL,
                OC5R := cycle, OC5RS := cycle, OC5CON := 0x06,
                T2CON := bit_set dr.2.T2CON 15 1 } }

/-- C `bp_update_duty_cycle(duty_cycle)`: re-programs the PWM with the stored
frequency and the new duty cycle. -/
def bp_update_duty_cycle (duty_cycle : Nat) (s : MachState) : MachState :=
  bp_update_pwm s.state.pwm_frequency duty_cycle s

/-- All-zero register file (the hardware reset state), used to build concrete
machine states. -/
def regs0 : Registers :=
  { T2CON := 0, T4CON := 0, OC5CON := 0, OC5R := 0, OC5RS := 0, PR2 := 0,
    PR3 := 0, PR4 := 0, PR5 := 0, TMR2 := 0, TMR3HLD := 0, TMR4 := 0,
    TMR5HLD := 0, IFS1_T5IF := 0, AUXPIN_RPOUT := 0, AUXPIN_DIR := 0,
    T2CKR := 0 }

/-- Concrete machine state with the zero-initialized manager state (the C
static initializer `state = {0}`) and reset registers. -/
def st0 : MachState :=
  { state := { pwm_frequency := 0, pwm_duty_cycle := 0, mode := aux_mode_t.io_mode },
    regs := regs0 }

/-- The divisor returned by `setup_prescaler_divisor` does not depend on the
incoming register contents. -/
theorem setup_prescaler_divisor_fst (f : Nat) (r r' : Registers) :
    (setup_prescaler_divisor f r).1 = (setup_prescaler_divisor f r').1 := by
  unfold setup_prescaler_divisor
  split_ifs <;> rfl

/-- C1: for every frequency in (0, 4000) the prescaler selection returns
divisor 62 (1:256) below 4 Hz, 250 (1:64) on [4, 31), 2000 (1:8) on [31, 245)
and 16000 (1:1) from 245 Hz up: the tier boundaries fall exactly between
3/4 Hz, 30/31 Hz and 244/245 Hz. -/
theorem spec_c1 (f : Nat) (r : Registers) (h0 : 0 < f) (h1 : f < 4000) :
    (f < 4 → (setup_prescaler_divisor f r).1 = 62) ∧
    (4 ≤ f → f < 31 → (setup_prescaler_divisor f r).1 = 250) ∧
    (31 ≤ f → f < 245 → (setup_prescaler_divisor f r).1 = 2000) ∧
    (245 ≤ f → (setup_prescaler_divisor f r).1 = 16000) := by
  unfold setup_prescaler_divisor
  refine ⟨fun h => ?_, fun h h' => ?_, fun h h' => ?_, fun h => ?_⟩ <;>
    split_ifs <;> first | rfl | omega

/-- Witness for C1 at the 244/245 boundary. -/
theorem spec_c1_witness :
    0 < 245 ∧ 245 < 4000 ∧
    ((245 < 4 → (setup_prescaler_divisor 245 regs0).1 = 62) ∧
     (4 ≤ 245 → 245 < 31 → (setup_prescaler_divisor 245 regs0).1 = 250) ∧
     (31 ≤ 245 → 245 < 245 → (setup_prescaler_divisor 245 regs0).1 = 2000) ∧
     (245 ≤ 245 → (setup_prescaler_divisor 245 regs0).1 = 16000)) :=
  ⟨by decide, by decide, spec_c1 245 regs0 (by decide) (by decide)⟩

/-- Unsigned 16-bit subtraction of 1 agrees with truncated subtraction as long
as the minuend is a positive 16-bit value. -/
theorem u16_sub_one (a : Nat) (h1 : 1 ≤ a) (h2 : a < 65536) :
    u16_sub a 1 = a - 1 := by
  unfold u16_sub
  omega

/-- For frequencies in the supported range the quotient `divisor / frequency`
lies in [1, 65]: the frequency never exceeds its tier's divisor, and each
tier's lower bound keeps the quotient small. -/
theorem divisor_div_bounds (f : Nat) (r : Registers) (h0 : 0 < f)
    (h1 : f < 4000) :
    1 ≤ (setup_prescaler_divisor f r).1 / f ∧
      (setup_prescaler_divisor f r).1 / f ≤ 65 := by
  unfold setup_prescaler_divisor
  split_ifs with h2 h3 h4
  · exact ⟨(Nat.one_le_div_iff h0).2 (by omega),
      le_trans (Nat.div_le_self 62 f) (by norm_num)⟩
  · refine ⟨(Nat.one_le_div_iff h0).2 (by omega), ?_⟩
    calc 250 / f ≤ 250 / 4 := Nat.div_le_div_left (by omega) (by norm_num)
    _ ≤ 65 := by norm_num
  · refine ⟨(Nat.one_le_div_iff h0).2 (by omega), ?_⟩
    calc 2000 / f ≤ 2000 / 31 := Nat.div_le_div_left (by omega) (by norm_num)
    _ ≤ 65 := by norm_num
  · refine ⟨(Nat.one_le_div_iff h0).2 (by omega), ?_⟩
    calc 16000 / f ≤ 16000 / 245 := Nat.div_le_div_left (by omega) (by norm_num)
    _ ≤ 65 := by norm_num

/-- C2: for every frequency in (0, 4000) and duty cycle in [0, 99],
`bp_update_pwm` programs the period register with `divisor / frequency - 1`
(truncating division) and the compare register with `period * duty / 100`
(truncating division); in particular at frequency 1000 and duty 50 the divisor
is 16000, the period 15 and the on-time 7. -/
theorem spec_c2 (f d : Nat) (s : MachState) (h0 : 0 < f) (h1 : f < 4000)
    (h2 : d ≤ 99) :
    (bp_update_pwm f d s).regs.PR2 = (setup_prescaler_divisor f s.regs).1 / f - 1 ∧
    (bp_update_pwm f d s).regs.OC5R = (bp_update_pwm f d s).regs.PR2 * d / 100 ∧
    (setup_prescaler_divisor 1000 s.regs).1 = 16000 ∧
    (bp_update_pwm 1000 50 s).regs.PR2 = 15 ∧
    (bp_update_pwm 1000 50 s).regs.OC5R = 7 := by
  have hf : f % 65536 = f := by omega
  have hd : d % 65536 = d := by omega
  have hfst := setup_prescaler_divisor_fst f
    { s.regs with T2CON := 0, T4CON := 0, OC5CON := 0 } s.regs
  have hqs := divisor_div_bounds f s.regs h0 h1
  have hPR2 : (bp_update_pwm f d s).regs.PR2 =
      (setup_prescaler_divisor f s.regs).1 / f - 1 := by
    simp only [bp_update_pwm, hf, hd]
    rw [if_neg (by omega)]
    simp [hfst]
    exact u16_sub_one _ hqs.1 (by omega)
  refine ⟨hPR2, ?_,
    by norm_num [setup_prescaler_divisor],
    by norm_num [bp_update_pwm, setup_prescaler_divisor, u16_sub],
    by norm_num [bp_update_pwm, setup_prescaler_divisor, u16_sub]⟩
  rw [hPR2]
  have h64 : (setup_prescaler_divisor f s.regs).1 / f - 1 ≤ 64 := by omega
  have hb : ((setup_prescaler_divisor f s.regs).1 / f - 1) * d ≤ 6336 := by
    calc ((setup_prescaler_divisor f s.regs).1 / f - 1) * d ≤ 64 * 99 :=
      Nat.mul_le_mul h64 h2
    _ ≤ 6336 := by norm_num
  simp only [bp_update_pwm, hf, hd]
  rw [if_neg (by omega)]
  simp [hfst]
  rw [u16_sub_one _ hqs.1 (by omega),
    Nat.mod_eq_of_lt (lt_of_le_of_lt hb (by norm_num))]

/-- Witness for C2 at frequency 1000, duty 50 on the reset state. -/
theorem spec_c2_witness :
    0 < 1000 ∧ 1000 < 4000 ∧ 50 ≤ 99 ∧
    ((bp_update_pwm 1000 50 st0).regs.PR2 =
        (setup_prescaler_divisor 1000 st0.regs).1 / 1000 - 1 ∧
     (bp_update_pwm 1000 50 st0).regs.OC5R =
        (bp_update_pwm 1000 50 st0).regs.PR2 * 50 / 100 ∧
     (setup_prescaler_divisor 1000 st0.regs).1 = 16000 ∧
     (bp_update_pwm 1000 50 st0).regs.PR2 = 15 ∧
     (bp_update_pwm 1000 50 st0).regs.OC5R = 7) :=
  ⟨by decide, by decide, by decide,
    spec_c2 1000 50 st0 (by decide) (by decide) (by decide)⟩

/-- C3: after any prior PWM programming, calling `bp_update_pwm` with the
frequency-0 sentinel leaves the AUX state in I/O mode and zeroes the
pin-routing register, detaching the output-compare unit from the pin. -/
theorem spec_c3 (f d d2 : Nat) (s : MachState) (h0 : 0 < f) (h1 : f < 4000) :
    (bp_update_pwm 0 d2 (bp_update_pwm f d s)).state.mode = aux_mode_t.io_mode ∧
    (bp_update_pwm 0 d2 (bp_update_pwm f d s)).regs.AUXPIN_RPOUT = 0 := by
  constructor <;> simp [bp_update_pwm]

/-- Witness for C3 with a 1000 Hz, 50% configuration first. -/
theorem spec_c3_witness :
    0 < 1000 ∧ 1000 < 4000 ∧
    ((bp_update_pwm 0 30 (bp_update_pwm 1000 50 st0)).state.mode =
        aux_mode_t.io_mode ∧
     (bp_update_pwm 0 30 (bp_update_pwm 1000 50 st0)).regs.AUXPIN_RPOUT = 0) :=
  ⟨by decide, by decide, spec_c3 1000 50 30 st0 (by decide) (by decide)⟩

/-- C4: programming PWM at frequency F in (0, 4000) and duty D in [0, 99]
stores exactly F and D in the AUX state, so reading them back round-trips. -/
theorem spec_c4 (f d : Nat) (s : MachState) (h0 : 0 < f) (h1 : f < 4000)
    (h2 : d ≤ 99) :
    (bp_update_pwm f d s).state.pwm_frequency = f ∧
    (bp_update_pwm f d s).state.pwm_duty_cycle = d := by
  have hf : f % 65536 = f := by omega
  have hd : d % 65536 = d := by omega
  simp only [bp_update_pwm, hf, hd]
  rw [if_neg (by omega)]
  exact ⟨rfl, rfl⟩

/-- Witness for C4 at frequency 50, duty 20. -/
theorem spec_c4_witness :
    0 < 50 ∧ 50 < 4000 ∧ 20 ≤ 99 ∧
    ((bp_update_pwm 50 20 st0).state.pwm_frequency = 50 ∧
     (bp_update_pwm 50 20 st0).state.pwm_duty_cycle = 20) :=
  ⟨by decide, by decide, by decide,
    spec_c4 50 20 st0 (by decide) (by decide) (by decide)⟩

/-- Semantic output events emitted through the message/output layer:
`msg n` is the firmware message `BPMSGn`, `charOut` a single `UART1TX`
character, `decByte`/`decWord`/`decDword` the `bp_write_dec_*` helpers,
`decDwordFriendly` the thousands-separated variant, `hzMarker` the
`MSG_PWM_HZ_MARKER` unit suffix, `freqTooLow` the
`MSG_PWM_FREQUENCY_TOO_LOW` message and `lineBreak` the `bpBR` newline. -/
inductive Out
  | msg (n : Nat)
  | charOut (c : Char)
  | decByte (n : Nat)
  | decWord (n : Nat)
  | decDword (n : Nat)
  | decDwordFriendly (n : Nat)
  | hzMarker
  | freqTooLow
  | lineBreak
deriving DecidableEq, Repr

/-- Pre-parsed command-line interaction for C `bp_pwm_setup`:
`next_char_is_nul` is the `cmdbuf[(cmdstart + 1) & CMDLENMSK] == 0x00` test,
`arg_freq` and `arg_duty` the two `getint()` results (the duty is assigned to
a `float`, hence kept signed), and `prompted_freq` / `prompted_duty` the
values a `getnumber(50, 1, 4000, 0)` / `getnumber(50, 0, 99, 0)` prompt would
return. -/
structure PwmCmdArgs where
  next_char_is_nul : Bool
  arg_freq : Nat
  arg_duty : Int
  prompted_freq : Nat
  prompted_duty : Nat
deriving DecidableEq, Repr

/-- C `bp_pwm_setup`: the interactive PWM command.  Clears the timers, stops a
running PWM (returning early when no further arguments follow), validates the
command-line frequency/duty pair, prompts for both when the pair is not fully
valid, and programs the PWM generator.  The duty-cycle fraction `PWM_pd / 100`
and the product `PWM_period * PWM_pd` are computed in C `float` arithmetic and
truncated on assignment; they are modelled in exact rational arithmetic. -/
def bp_pwm_setup (a : PwmCmdArgs) (s : MachState) : MachState × List Out :=
  let r0 := { s.regs with T2CON := 0, T4CON := 0, OC5CON := 0 }
  let stopped : Bool := s.state.mode = aux_mode_t.pwm_mode
  let st1 := if stopped then { s.state with mode := aux_mode_t.io_mode } else s.state
  let r1 := if stopped then { r0 with AUXPIN_RPOUT := 0 } else r0
  let outs1 : List Out := if stopped then [Out.msg 1028] else []
  if stopped ∧ a.next_char_is_nul then
    ({ state := st1, regs := r1 }, outs1)
  else
    let done : Nat := (if 0 < a.arg_freq ∧ a.arg_freq < 4000 then 1 else 0) +
      (if 0 < a.arg_duty ∧ a.arg_duty < 100 then 1 else 0)
    let freq := if done ≠ 2 then a.prompted_freq else a.arg_freq
    let outs2 := outs1 ++ (if done ≠ 2 then [Out.msg 1029, Out.msg 1030] else [])
    let dr := setup_prescaler_divisor freq r1
    let period := u16_sub (dr.1 / freq) 1
    let pd : ℚ := if done ≠ 2 then (a.prompted_duty : ℚ) else (a.arg_duty : ℚ)
    let outs3 := outs2 ++ (if done ≠ 2 then [Out.msg 1033] else [])
    let cycle := Int.toNat ⌊(period : ℚ) * (pd / 100)⌋
    ({ state := { st1 with mode := aux_mode_t.pwm_mode },
       regs := { dr.2 with
                 AUXPIN_RPOUT := OC5_SEL, OC5R := cycle, OC5RS := cycle,
                 OC5CON := 0x6, PR2 := period,
                 T2CON := bit_set dr.2.T2CON 15 1 } },
     outs3 ++ [Out.msg 1034])

/-- C10: the interactive `bp_pwm_setup` never writes the stored PWM frequency
or duty cycle: both fields survive any execution unchanged (only the mode may
change), so a later `bp_update_duty_cycle` re-programs with whatever frequency
`bp_update_pwm` last stored, not the interactively entered one. -/
theorem spec_c10 (a : PwmCmdArgs) (s : MachState) :
    (bp_pwm_setup a s).1.state.pwm_frequency = s.state.pwm_frequency ∧
    (bp_pwm_setup a s).1.state.pwm_duty_cycle = s.state.pwm_duty_cycle ∧
    ∀ d : Nat, bp_update_duty_cycle d (bp_pwm_setup a s).1 =
      bp_update_pwm s.state.pwm_frequency d (bp_pwm_setup a s).1 := by
  have hfr : (bp_pwm_setup a s).1.state.pwm_frequency = s.state.pwm_frequency := by
    simp only [bp_pwm_setup]
    split_ifs <;> rfl
  have hdu : (bp_pwm_setup a s).1.state.pwm_duty_cycle = s.state.pwm_duty_cycle := by
    simp only [bp_pwm_setup]
    split_ifs <;> rfl
  refine ⟨hfr, hdu, fun d => ?_⟩
  unfold bp_update_duty_cycle
  rw [hfr]

/-- C `poll_frequency_counter_value`: programs the one-second gate (timer 4 in
32-bit mode counting to 0x00F42400) and the edge counter (timer 2/3), busy
waits for the window, then reads the accumulated count.  The number of edges
the hardware counts in that second, `v`, is an oracle parameter; the hardware
leaves its low/high words in `TMR2`/`TMR3HLD` and the C function returns
`(counter_high << 16) + counter_low`. -/
def poll_frequency_counter_value (v : Nat) (r : Registers) : Nat × Registers :=
  let r := { r with PR3 := 0xFFFF, PR2 := 0xFFFF, TMR3HLD := 0, TMR2 := 0,
                    TMR5HLD := 0, TMR4 := 0 }
  let r := { r with T4CON := bit_set r.T4CON 3 1 }
  let r := { r with PR5 := 0x00F4, PR4 := 0x2400, IFS1_T5IF := 0 }
  let r := { r with T4CON := bit_set r.T4CON 15 1 }
  let r := { r with T2CON := bit_set r.T2CON 15 1 }
  let r := { r with T2CON := bit_set r.T2CON 15 0 }
  let r := { r with T4CON := bit_set r.T4CON 15 0 }
  let r := { r with TMR2 := v % 65536, TMR3HLD := v / 65536 % 65536 }
  ((r.TMR3HLD <<< 16) + r.TMR2, r)

/-- Autorange step of C `bp_frequency_counter_setup` (the
`if (f > 0x3fff) f *= 256; else { ...; f = poll... }` block): a coarse
1:256-prescaled one-second count above 0x3fff is scaled by 256 with no second
measurement; otherwise the function re-measures for one second at 1:1
prescale and uses that count unscaled.  Returns the count to report and
whether the second pass ran. -/
def frequency_autorange (coarse fine : Nat) : Nat × Bool :=
  if coarse > 0x3fff then (coarse * 256, false) else (fine, true)

/-- Number of characters the `bp_write_dec_*` helpers print for `n`: the
length of its decimal representation. -/
def decDigits (n : Nat) : Nat := Nat.log 10 n + 1

/-- The five output-resolution tiers of `bp_frequency_counter_setup`, named by
the guard of the `else if` cascade that selects them from the measured
average period. -/
inductive FreqTier
  | gt400000
  | gt126491
  | gt40000
  | gt12649
  | low
deriving DecidableEq, Repr

/-- Tier selected by the `if (p > 400000) ... else if (p > 126491) ...`
cascade of `bp_frequency_counter_setup` for an average period `p`. -/
def freq_tier (p : Nat) : FreqTier :=
  if p > 400000 then FreqTier.gt400000
  else if p > 126491 then FreqTier.gt126491
  else if p > 40000 then FreqTier.gt40000
  else if p > 12649 then FreqTier.gt12649
  else FreqTier.low

/-- Output emitted by the five-tier frequency formatter of
`bp_frequency_counter_setup` for an average period `p`: integral part with
thousands separators, a decimal point, zero padding, then the fractional
part.  The C source divides the floating-point literals `16e11` down to
`16e7` by `p` and truncates the quotient into an unsigned long long; this is
modelled as exact integer division (the claims proved below depend only on
tier membership and on emitted digit counts, which agree). -/
def format_frequency (p : Nat) : List Out :=
  if p > 400000 then
    [Out.decDwordFriendly (1600000000000 / p / 100000), Out.charOut '.'] ++
      (if 1600000000000 / p % 100000 < 10000 then [Out.charOut '0'] else []) ++
      (if 1600000000000 / p % 100000 < 1000 then [Out.charOut '0'] else []) ++
      (if 1600000000000 / p % 100000 < 100 then [Out.charOut '0'] else []) ++
      (if 1600000000000 / p % 100000 < 10 then [Out.charOut '0'] else []) ++
      [Out.decDword (1600000000000 / p % 100000)]
  else if p > 126491 then
    [Out.decDwordFriendly (160000000000 / p / 10000), Out.charOut '.'] ++
      (if 160000000000 / p % 10000 < 1000 then [Out.charOut '0'] else []) ++
      (if 160000000000 / p % 10000 < 100 then [Out.charOut '0'] else []) ++
      (if 160000000000 / p % 10000 < 10 then [Out.charOut '0'] else []) ++
      [Out.decWord (160000000000 / p % 10000)]
  else if p > 40000 then
    [Out.decDwordFriendly (16000000000 / p / 1000), Out.charOut '.'] ++
      (if 16000000000 / p % 1000 < 100 then [Out.charOut '0'] else []) ++
      (if 16000000000 / p % 1000 < 10 then [Out.charOut '0'] else []) ++
      [Out.decWord (16000000000 / p % 1000)]
  else if p > 12649 then
    [Out.decDwordFriendly (1600000000 / p / 100), Out.charOut '.'] ++
      (if 1600000000 / p % 100 < 10 then [Out.charOut '0'] else []) ++
      [Out.decByte (1600000000 / p % 100)]
  else
    [Out.decDwordFriendly (160000000 / p / 10), Out.charOut '.',
     Out.decByte (160000000 / p % 10)]

/-- Width (in characters) an output event contributes to a printed number:
one per padding character, the decimal length for the numeric writes. -/
def out_width : Out → Nat
  | Out.charOut _ => 1
  | Out.decByte n => decDigits n
  | Out.decWord n => decDigits n
  | Out.decDword n => decDigits n
  | _ => 0

/-- Number of digit characters printed after the decimal point for average
period `p`: every tier first emits the integral part and the point (the first
two events), so the fractional field is everything after them. -/
def fractional_digits (p : Nat) : Nat :=
  (((format_frequency p).drop 2).map out_width).sum

/-- C `bp_frequency_counter_setup`: refuses while PWM owns the hardware;
otherwise routes the AUX pin to timer 2's clock input, takes a one-second
1:256-prescaled edge count, autoranges, then either reports the count
directly (above 3999 Hz), or switches to period averaging (the
`average_sample_frequency` result for the given sample count is the oracle
`avg`) and formats the derived frequency at the tier's resolution, and
finally tears the clock routing and timers down.  `coarse` and `fine` are the
two possible one-second measurement results. -/
def bp_frequency_counter_setup (coarse fine : Nat) (avg : Nat → Nat)
    (s : MachState) : MachState × List Out :=
  if s.state.mode = aux_mode_t.pwm_mode then
    (s, [Out.msg 1037])
  else
    let r := { s.regs with T4CON := 0, T2CON := 0, AUXPIN_DIR := 1,
                           T2CKR := AUXPIN_RPIN }
    let r := { r with T2CON := 0b111010 }
    let pr := poll_frequency_counter_value coarse r
    let ar := frequency_autorange pr.1 fine
    let r := if ar.2 then
        (poll_frequency_counter_value fine { pr.2 with T2CON := 0b001010 }).2
      else pr.2
    let outs0 := [Out.msg 1038] ++ (if ar.2 then [Out.msg 1245] else [])
    let f := ar.1
    let outsf :=
      if f > 3999 then [Out.decDwordFriendly f, Out.hzMarker]
      else if f > 0 then
        [Out.msg 1245] ++ format_frequency (avg f) ++ [Out.hzMarker]
      else [Out.freqTooLow]
    let r := { r with T2CKR := 0b11111, T4CON := 0, T2CON := 0 }
    ({ s with regs := r }, outs0 ++ outsf)

/-- C5: invoking the frequency counter while the AUX pin is in PWM mode only
reports the PWM-conflict message (`BPMSG1037`) and returns: the manager state
and every hardware register are left exactly as they were. -/
theorem spec_c5 (coarse fine : Nat) (avg : Nat → Nat) (s : MachState)
    (h : s.state.mode = aux_mode_t.pwm_mode) :
    bp_frequency_counter_setup coarse fine avg s = (s, [Out.msg 1037]) := by
  simp [bp_frequency_counter_setup, h]

/-- Concrete machine state sitting in PWM mode. -/
def stPwm : MachState :=
  { state := { pwm_frequency := 1000, pwm_duty_cycle := 50,
               mode := aux_mode_t.pwm_mode },
    regs := regs0 }

/-- Witness for C5 on a concrete PWM-mode state. -/
theorem spec_c5_witness :
    stPwm.state.mode = aux_mode_t.pwm_mode ∧
    bp_frequency_counter_setup 7 9 (fun _ => 0) stPwm = (stPwm, [Out.msg 1037]) :=
  ⟨rfl, spec_c5 7 9 (fun _ => 0) stPwm rfl⟩

/-- C6: the autorange decision scales a coarse one-second count above 0x3fff
by 256 without a second pass, and re-measures unprescaled (using that second
count unscaled) when the coarse count is at most 0x3fff. -/
theorem spec_c6 (c fine : Nat) :
    (0x3fff < c → frequency_autorange c fine = (c * 256, false)) ∧
    (c ≤ 0x3fff → frequency_autorange c fine = (fine, true)) := by
  unfold frequency_autorange
  constructor <;> intro h
  · rw [if_pos h]
  · rw [if_neg (by omega)]

/-- Witness for C6 just above the threshold. -/
theorem spec_c6_witness :
    0x3fff < 0x4000 ∧ frequency_autorange 0x4000 9 = (0x4000 * 256, false) :=
  ⟨by decide, (spec_c6 0x4000 9).1 (by decide)⟩

/-- A number below 10 prints as one character. -/
theorem decDigits_one {n : Nat} (h : n < 10) : decDigits n = 1 := by
  unfold decDigits
  rw [Nat.log_eq_zero_iff.2 (Or.inl h)]

/-- A number in [10, 100) prints as two characters. -/
theorem decDigits_two {n : Nat} (h1 : 10 ≤ n) (h2 : n < 100) : decDigits n = 2 := by
  unfold decDigits
  rw [Nat.log_eq_of_pow_le_of_lt_pow (m := 1) (by simpa using h1) (by simpa using h2)]

/-- A number in [100, 1000) prints as three characters. -/
theorem decDigits_three {n : Nat} (h1 : 100 ≤ n) (h2 : n < 1000) :
    decDigits n = 3 := by
  unfold decDigits
  rw [Nat.log_eq_of_pow_le_of_lt_pow (m := 2) (by simpa using h1) (by simpa using h2)]

/-- A number in [1000, 10000) prints as four characters. -/
theorem decDigits_four {n : Nat} (h1 : 1000 ≤ n) (h2 : n < 10000) :
    decDigits n = 4 := by
  unfold decDigits
  rw [Nat.log_eq_of_pow_le_of_lt_pow (m := 3) (by simpa using h1) (by simpa using h2)]

/-- A number in [10000, 100000) prints as five characters. -/
theorem decDigits_five {n : Nat} (h1 : 10000 ≤ n) (h2 : n < 100000) :
    decDigits n = 5 := by
  unfold decDigits
  rw [Nat.log_eq_of_pow_le_of_lt_pow (m := 4) (by simpa using h1) (by simpa using h2)]

/-- C7: the resolution tier chosen for a measured average period `p` follows
the five documented thresholds exactly, and that tier prints exactly its
fixed number of fractional digits: 5 above 400000 ticks, 4 on
(126491, 400000], 3 on (40000, 126491], 2 on (12649, 40000] and 1 at or
below 12649 ticks. -/
theorem spec_c7 (p : Nat) :
    (400000 < p → freq_tier p = FreqTier.gt400000 ∧ fractional_digits p = 5) ∧
    (126491 < p → p ≤ 400000 →
      freq_tier p = FreqTier.gt126491 ∧ fractional_digits p = 4) ∧
    (40000 < p → p ≤ 126491 →
      freq_tier p = FreqTier.gt40000 ∧ fractional_digits p = 3) ∧
    (12649 < p → p ≤ 40000 →
      freq_tier p = FreqTier.gt12649 ∧ fractional_digits p = 2) ∧
    (p ≤ 12649 → freq_tier p = FreqTier.low ∧ fractional_digits p = 1) := by
  refine ⟨fun h => ⟨?_, ?_⟩, fun h h' => ⟨?_, ?_⟩, fun h h' => ⟨?_, ?_⟩,
    fun h h' => ⟨?_, ?_⟩, fun h => ⟨?_, ?_⟩⟩
  · unfold freq_tier
    split_ifs <;> first | rfl | omega
  · unfold fractional_digits format_frequency
    rw [if_pos h]
    have hglt : 1600000000000 / p % 100000 < 100000 := Nat.mod_lt _ (by norm_num)
    by_cases h1 : 1600000000000 / p % 100000 < 10
    · rw [if_pos (show 1600000000000 / p % 100000 < 10000 by omega),
        if_pos (show 1600000000000 / p % 100000 < 1000 by omega),
        if_pos (show 1600000000000 / p % 100000 < 100 by omega), if_pos h1]
      simp [out_width, decDigits_one h1]
    · by_cases h2 : 1600000000000 / p % 100000 < 100
      · rw [if_pos (show 1600000000000 / p % 100000 < 10000 by omega),
          if_pos (show 1600000000000 / p % 100000 < 1000 by omega),
          if_pos h2, if_neg h1]
        simp [out_width, decDigits_two (by omega) h2]
      · by_cases h3 : 1600000000000 / p % 100000 < 1000
        · rw [if_pos (show 1600000000000 / p % 100000 < 10000 by omega),
            if_pos h3, if_neg h2, if_neg h1]
          simp [out_width, decDigits_three (by omega) h3]
        · by_cases h4 : 1600000000000 / p % 100000 < 10000
          · rw [if_pos h4, if_neg h3, if_neg h2, if_neg h1]
            simp [out_width, decDigits_four (by omega) h4]
          · rw [if_neg h4, if_neg h3, if_neg h2, if_neg h1]
            simp [out_width, decDigits_five (by omega) hglt]
  · unfold freq_tier
    split_ifs <;> first | rfl | omega
  · unfold fractional_digits format_frequency
    rw [if_neg (by omega), if_pos h]
    have hglt : 160000000000 / p % 10000 < 10000 := Nat.mod_lt _ (by norm_num)
    by_cases h1 : 160000000000 / p % 10000 < 10
    · rw [if_pos (show 160000000000 / p % 10000 < 1000 by omega),
        if_pos (show 160000000000 / p % 10000 < 100 by omega), if_pos h1]
      simp [out_width, decDigits_one h1]
    · by_cases h2 : 160000000000 / p % 10000 < 100
      · rw [if_pos (show 160000000000 / p % 10000 < 1000 by omega),
          if_pos h2, if_neg h1]
        simp [out_width, decDigits_two (by omega) h2]
      · by_cases h3 : 160000000000 / p % 10000 < 1000
        · rw [if_pos h3, if_neg h2, if_neg h1]
          simp [out_width, decDigits_three (by omega) h3]
        · rw [if_neg h3, if_neg h2, if_neg h1]
          simp [out_width, decDigits_four (by omega) hglt]
  · unfold freq_tier
    split_ifs <;> first | rfl | omega
  · unfold fractional_digits format_frequency
    rw [if_neg (by omega), if_neg (by omega), if_pos h]
    have hglt : 16000000000 / p % 1000 < 1000 := Nat.mod_lt _ (by norm_num)
    by_cases h1 : 16000000000 / p % 1000 < 10
    · rw [if_pos (show 16000000000 / p % 1000 < 100 by omega), if_pos h1]
      simp [out_width, decDigits_one h1]
    · by_cases h2 : 16000000000 / p % 1000 < 100
      · rw [if_pos h2, if_neg h1]
        simp [out_width, decDigits_two (by omega) h2]
      · rw [if_neg h2, if_neg h1]
        simp [out_width, decDigits_three (by omega) hglt]
  · unfold freq_tier
    split_ifs <;> first | rfl | omega
  · unfold fractional_digits format_frequency
    rw [if_neg (by omega), if_neg (by omega), if_neg (by omega), if_pos h]
    have hglt : 1600000000 / p % 100 < 100 := Nat.mod_lt _ (by norm_num)
    by_cases h1 : 1600000000 / p % 100 < 10
    · rw [if_pos h1]
      simp [out_width, decDigits_one h1]
    · rw [if_neg h1]
      simp [out_width, decDigits_two (by omega) hglt]
  · unfold freq_tier
    split_ifs <;> first | rfl | omega
  · unfold fractional_digits format_frequency
    rw [if_neg (by omega), if_neg (by omega), if_neg (by omega),
      if_neg (by omega)]
    have h1 : 160000000 / p % 10 < 10 := Nat.mod_lt _ (by norm_num)
    simp [out_width, decDigits_one h1]

/-- Witness for C7 just above the 126491 threshold. -/
theorem spec_c7_witness :
    126491 < 126492 ∧ 126492 ≤ 400000 ∧
    (freq_tier 126492 = FreqTier.gt126491 ∧ fractional_digits 126492 = 4) :=
  ⟨by decide, by decide, (spec_c7 126492).2.1 (by decide) (by decide)⟩

/-- Counterexample for C8 as stated: at an average period of 20000 ticks the
`> 12649` tier is selected, but the emitted fractional field has two digits,
not one. -/
theorem spec_c8_counterexample :
    freq_tier 20000 = FreqTier.gt12649 ∧ fractional_digits 20000 ≠ 1 := by
  constructor
  · norm_num [freq_tier]
  · norm_num [fractional_digits, format_frequency, out_width, decDigits]

/-- C8 (amended): for a measured average period of exactly 20000 ticks,
`bp_frequency_counter_setup` selects the `> 12649` resolution tier and emits
the frequency with two decimal places. -/
theorem spec_c8 :
    freq_tier 20000 = FreqTier.gt12649 ∧ fractional_digits 20000 = 2 := by
  constructor
  · norm_num [freq_tier]
  · norm_num [fractional_digits, format_frequency, out_width, decDigits]

/-- On-time (output-compare value) computed by the `servoset` block of C
`bp_servo_setup`: `PWM_dutycycle = (PWM_period * PWM_pd) + 62` with
`PWM_period = 1250` and `PWM_pd = angle / 3500`, evaluated in C `float`
arithmetic and truncated on assignment to `unsigned int`; modelled in exact
rational arithmetic (every value involved is far from a rounding boundary). -/
def servo_on_time (angle : ℚ) : Nat :=
  Int.toNat ⌊(1250 : ℚ) * (angle / 3500) + 62⌋

/-- The `servoset:` block of C `bp_servo_setup`: programs the 1:64 prescale
bits, the fixed period 1250, the on-time derived from the angle, routes the
output-compare unit to the AUX pin, starts the timer and enters PWM mode. -/
def servo_program (angle : ℚ) (s : MachState) : MachState :=
  let t2 := bit_set (bit_set s.regs.T2CON 5 1) 4 1
  { state := { s.state with mode := aux_mode_t.pwm_mode },
    regs := { s.regs with
              T2CON := bit_set t2 15 1, PR2 := 1250,
              AUXPIN_RPOUT := OC5_SEL, OC5R := servo_on_time angle,
              OC5RS := servo_on_time angle, OC5CON := 0x6 } }

/-- Pre-parsed command-line interaction for C `bp_servo_setup`:
`next_char_is_nul` the empty-arguments test, `arg_error` the `command_error`
flag after `getint()`, `arg_angle` the `getint()` result, `prompted_angle`
the `getnumber(90, 0, 180, 0)` result, and `loop_angles` the successive
`getnumber(-1, 0, 180, 1)` results of the re-entry loop (a negative value
exits). -/
structure ServoCmdArgs where
  next_char_is_nul : Bool
  arg_error : Bool
  arg_angle : Int
  prompted_angle : Nat
  loop_angles : List Int
deriving DecidableEq, Repr

/-- The `goto servoset` re-entry loop of C `bp_servo_setup`: each prompted
angle below zero prints a line break and exits, any other angle re-programs
the servo waveform and prompts again (the supplied list carries the prompt
results; an exhausted list ends the loop). -/
def servo_loop : List Int → MachState → MachState × List Out
  | [], s => (s, [])
  | a :: rest, s =>
    if a < 0 then (s, [Out.lineBreak])
    else
      let next := servo_loop rest (servo_program (a : ℚ) s)
      (next.1, [Out.msg 1255] ++ next.2)

/-- C `bp_servo_setup`: clears the timers, stops a running servo/PWM waveform
when called with no arguments, otherwise obtains an angle (prompting when the
command-line value is in error or above 180) and programs a 50 Hz servo
waveform, repeating via the re-entry loop when the prompt path was taken. -/
def bp_servo_setup (a : ServoCmdArgs) (s : MachState) : MachState × List Out :=
  let r0 := { s.regs with T2CON := 0, T4CON := 0, OC5CON := 0 }
  let s0 : MachState := { s with regs := r0 }
  if s.state.mode = aux_mode_t.pwm_mode ∧ a.next_char_is_nul then
    ({ state := { s.state with mode := aux_mode_t.io_mode },
       regs := { r0 with AUXPIN_RPOUT := 0 } }, [Out.msg 1028])
  else
    let invalid := a.arg_error ∨ 180 < a.arg_angle
    let angle : ℚ := if invalid then (a.prompted_angle : ℚ) else (a.arg_angle : ℚ)
    let outs1 := if invalid then [Out.msg 1254] else []
    let s1 := servo_program angle s0
    if invalid then
      let lp := servo_loop a.loop_angles s1
      (lp.1, outs1 ++ [Out.msg 1255] ++ lp.2)
    else
      (s1, outs1 ++ [Out.msg 1255])

/-- The rational servo on-time computation collapses to natural truncated
division: `1250 * angle / 3500 + 62`. -/
theorem servo_on_time_natCast (n : Nat) :
    servo_on_time (n : ℚ) = 1250 * n / 3500 + 62 := by
  unfold servo_on_time
  rw [Int.floor_toNat]
  have hq : (1250 : ℚ) * ((n : ℚ) / 3500) + 62 =
      ((1250 * n : ℕ) : ℚ) / ((3500 : ℕ) : ℚ) + ((62 : ℕ) : ℚ) := by
    push_cast
    ring
  rw [hq, Nat.floor_add_nat (by positivity), Nat.floor_div_eq_div]

/-- C9: the servo on-time grows monotonically with the angle over [0, 180],
equals the fixed 62-tick offset at angle 0 and 94 ticks at angle 90, and the
`servoset` block programs exactly this on-time with a fixed period of 1250
ticks. -/
theorem spec_c9 :
    (∀ a b : Nat, a ≤ b → b ≤ 180 → servo_on_time a ≤ servo_on_time b) ∧
    servo_on_time 0 = 62 ∧ servo_on_time 90 = 94 ∧
    ∀ (q : ℚ) (s : MachState),
      (servo_program q s).regs.PR2 = 1250 ∧
      (servo_program q s).regs.OC5R = servo_on_time q := by
  refine ⟨fun a b hab _ => ?_, ?_, ?_, fun q s => ⟨rfl, rfl⟩⟩
  · rw [servo_on_time_natCast, servo_on_time_natCast]
    exact Nat.add_le_add_right
      (Nat.div_le_div_right (Nat.mul_le_mul_left 1250 hab)) 62
  · have h := servo_on_time_natCast 0
    simpa using h
  · have h := servo_on_time_natCast 90
    rw [show ((90 : Nat) : ℚ) = (90 : ℚ) by norm_num] at h
    rw [h]

/-- Witness for C9's monotonicity at angles 0 and 90. -/
theorem spec_c9_witness :
    (0 : Nat) ≤ 90 ∧ (90 : Nat) ≤ 180 ∧
    servo_on_time ((0 : Nat) : ℚ) ≤ servo_on_time ((90 : Nat) : ℚ) :=
  ⟨by decide, by decide, spec_c9.1 0 90 (by decide) (by decide)⟩

end BusPirate
